import Mathlib

/-! Weather-app: the weather-code tables and the fetch lifecycle of `src/App.js`.

A shallow embedding of the `WeatherApp` component: the two lookup tables
(`getWeatherIcon`, `getWeatherDescription`), the three pieces of React state
(`weatherData`, `loading`, `refreshing`), the asynchronous `fetchWeatherData`
split at its `await` into the call and its settlement, `onRefresh`, and the
choice of the rendered view.
-/

namespace WeatherApp

/-! ## Weather classification tables -/

/-- JavaScript `v || d` where `v` is the result of a property read on a table of
strings: `none` is `undefined`, and the empty string is the only falsy string. -/
def jsOr (v : Option String) (d : String) : String :=
  match v with
  | some s => if s = "" then d else s
  | none => d

/-- A property read `table[key]` on an object literal with integer keys. The key
`none` is `undefined` (what an out-of-range array read yields), which names no
entry of the table. -/
def readEntry (table : List (Int × String)) (key : Option Int) : Option String :=
  match key with
  | some c => table.lookup c
  | none => none

/-- The object literal `iconMap` of `getWeatherIcon` (App.js lines 25-46). -/
def iconMap (isDay : Bool) : List (Int × String) :=
  [ (0, if isDay then "☀️" else "🌙"),
    (1, if isDay then "🌤️" else "🌙"),
    (2, "⛅"),
    (3, "☁️"),
    (45, "🌫️"),
    (48, "🌫️"),
    (51, "🌦️"),
    (53, "🌦️"),
    (55, "🌦️"),
    (61, "🌧️"),
    (63, "🌧️"),
    (65, "🌧️"),
    (80, "🌦️"),
    (81, "🌦️"),
    (82, "🌦️"),
    (85, "🌨️"),
    (86, "🌨️"),
    (95, "⛈️"),
    (96, "⛈️"),
    (99, "⛈️") ]

/-- The function `getWeatherIcon` (App.js lines 24-48):
`return iconMap[weatherCode] || "🌤️"`. -/
def getWeatherIcon (weatherCode : Option Int) (isDay : Bool) : String :=
  jsOr (readEntry (iconMap isDay) weatherCode) "🌤️"

/-- The object literal `descriptions` of `getWeatherDescription`
(App.js lines 51-76). -/
def descriptions : List (Int × String) :=
  [ (0, "Clear sky"),
    (1, "Mainly clear"),
    (2, "Partly cloudy"),
    (3, "Overcast"),
    (45, "Fog"),
    (48, "Depositing rime fog"),
    (51, "Light drizzle"),
    (53, "Moderate drizzle"),
    (55, "Dense drizzle"),
    (61, "Slight rain"),
    (63, "Moderate rain"),
    (65, "Heavy rain"),
    (71, "Slight snow fall"),
    (73, "Moderate snow fall"),
    (75, "Heavy snow fall"),
    (77, "Snow grains"),
    (80, "Slight rain showers"),
    (81, "Moderate rain showers"),
    (82, "Violent rain showers"),
    (85, "Slight snow showers"),
    (86, "Heavy snow showers"),
    (95, "Thunderstorm"),
    (96, "Thunderstorm with slight hail"),
    (99, "Thunderstorm with heavy hail") ]

/-- The function `getWeatherDescription` (App.js lines 50-78):
`return descriptions[weatherCode] || "Unknown"`. -/
def getWeatherDescription (weatherCode : Option Int) : String :=
  jsOr (readEntry descriptions weatherCode) "Unknown"

/-! ## Data model

The parsed response body. Only the fields read by the modelled part of the
render are kept; numbers that are not weather codes stay in an abstract type
`Num`, and the flag `is_day` is kept by its truthiness. -/

/-- The `current` object of the response. -/
structure Current (Num : Type) where
  temperature_2m : Num
  apparent_temperature : Num
  is_day : Bool
  weather_code : Int
deriving DecidableEq, Repr

/-- The `daily` object of the response: four arrays read side by side. -/
structure Daily (Num : Type) where
  time : List String
  weather_code : List Int
  temperature_2m_max : List Num
  temperature_2m_min : List Num
deriving DecidableEq, Repr

/-- The value stored by `setWeatherData(data)`. -/
structure WeatherData (Num : Type) where
  current : Current Num
  daily : Daily Num
deriving DecidableEq, Repr

/-- What the JavaScript runtime supplies: `formatDate` (App.js lines 113-120,
a call of `Date.prototype.toLocaleDateString`) and the text shown for
`Math.round(x)`, where `x` may be `undefined` (`none`). -/
structure Host (Num : Type) where
  formatDate : String → String
  mathRound : Option Num → String

/-! ## Component state and the fetch lifecycle -/

/-- The React state of `WeatherApp` (App.js lines 19-21), with the number of
fetches issued and not yet settled, and counters for the two effects of the
`catch` block. `weatherData = none` is `null`. -/
structure State (Num : Type) where
  weatherData : Option (WeatherData Num)
  loading : Bool
  refreshing : Bool
  inFlight : Nat
  alerts : Nat
  errorsLogged : Nat
deriving DecidableEq, Repr

/-- The state given by the `useState` initial values: `weatherData = null`,
`loading = true`, `refreshing = false`. -/
def initial {Num : Type} : State Num :=
  { weatherData := none, loading := true, refreshing := false,
    inFlight := 0, alerts := 0, errorsLogged := 0 }

/-- How the awaited part of `fetchWeatherData` comes out. -/
inductive FetchResult (Num : Type) where
  /-- The promise of `fetch(...)` rejects. -/
  | fetchRejects
  /-- The response arrives with `response.ok` false. -/
  | notOk
  /-- The promise of `response.json()` rejects. -/
  | jsonRejects
  /-- The response is ok and its body parses to `data`. -/
  | parsed (data : WeatherData Num)
deriving DecidableEq, Repr

/-- Whether the result is one of the three failures. -/
def FetchResult.failed {Num : Type} : FetchResult Num → Bool
  | .parsed _ => false
  | _ => true

/-- The call `fetchWeatherData()` up to its first `await`: one request is
issued, no state is written (App.js lines 80-84). -/
def fetchWeatherData {Num : Type} (s : State Num) : State Num :=
  { s with inFlight := s.inFlight + 1 }

/-- The `try` block after the awaits (App.js lines 86-91): it throws on a
failure and otherwise runs `setWeatherData(data)`. -/
def tryBlock {Num : Type} (r : FetchResult Num) (s : State Num) : Except Unit (State Num) :=
  match r with
  | .fetchRejects => .error ()
  | .notOk => .error ()
  | .jsonRejects => .error ()
  | .parsed data => .ok { s with weatherData := some data }

/-- The `catch` block (App.js lines 92-97): `Alert.alert` and `console.error`. -/
def catchBlock {Num : Type} (s : State Num) : State Num :=
  { s with alerts := s.alerts + 1, errorsLogged := s.errorsLogged + 1 }

/-- The `finally` block (App.js lines 98-101). -/
def finallyBlock {Num : Type} (s : State Num) : State Num :=
  { s with loading := false, refreshing := false }

/-- The rest of `fetchWeatherData` once the awaited request has come out as `r`:
`try`, `catch` on a throw, then `finally`. -/
def fetchSettles {Num : Type} (r : FetchResult Num) (s : State Num) : State Num :=
  let s1 := match tryBlock r s with
    | .ok s2 => s2
    | .error _ => catchBlock s
  finallyBlock { s1 with inFlight := s1.inFlight - 1 }

/-- The handler `onRefresh` (App.js lines 104-107): `setRefreshing(true)`, then
a call of `fetchWeatherData()` that is not awaited. -/
def onRefresh {Num : Type} (s : State Num) : State Num :=
  fetchWeatherData { s with refreshing := true }

/-- The effect run once on mount (App.js lines 109-111). -/
def useEffect {Num : Type} (s : State Num) : State Num :=
  fetchWeatherData s

/-! ## Rendering -/

/-- The event handlers the component defines. -/
inductive Handler where
  | onRefresh
deriving DecidableEq, Repr

/-- The element `RefreshControl` with its two props (App.js lines 169-173). -/
structure RefreshControl where
  refreshing : Bool
  onRefresh : Handler
deriving DecidableEq, Repr

/-- One row of the forecast list (App.js lines 255-286). -/
structure ForecastItem where
  forecastDate : String
  forecastIcon : String
  forecastDescription : String
  forecastHigh : String
  forecastLow : String
deriving DecidableEq, Repr

/-- The populated screen (App.js lines 155-292), without the header and the
details block. -/
structure LoadedScreen where
  gradient : List String
  refreshControl : RefreshControl
  weatherIcon : String
  temperature : String
  description : String
  feelsLike : String
  forecast : List ForecastItem
deriving DecidableEq, Repr

/-- The three element trees the component can return. -/
inductive View where
  /-- The spinner with "Loading weather data..." (App.js lines 122-136). -/
  | loadingView
  /-- The text "Unable to load weather data" (App.js lines 138-151). -/
  | errorView
  /-- The populated screen (App.js lines 155-292). -/
  | loadedView (screen : LoadedScreen)
deriving DecidableEq, Repr

/-- The `RefreshControl` of a rendered tree, if the tree has one: only the
populated screen wraps its content in a `ScrollView` with a `refreshControl`. -/
def View.refreshControl : View → Option RefreshControl
  | .loadingView => none
  | .errorView => none
  | .loadedView screen => some screen.refreshControl

/-- JavaScript `Array.prototype.map` with its `(element, index)` callback,
counting indices from `start`. -/
def arrayMap {α β : Type} (f : α → Nat → β) : List α → Nat → List β
  | [], _ => []
  | x :: xs, start => f x start :: arrayMap f xs (start + 1)

/-- The callback of `daily.time.map` (App.js lines 254-287). An array read
`xs[index]` is `xs[index]?`: `undefined` out of range. -/
def forecastItem {Num : Type} (H : Host Num) (daily : Daily Num) (date : String) (index : Nat) :
    ForecastItem :=
  { forecastDate := if index = 0 then "Today" else H.formatDate date,
    forecastIcon := getWeatherIcon daily.weather_code[index]? true,
    forecastDescription := getWeatherDescription daily.weather_code[index]?,
    forecastHigh := H.mathRound daily.temperature_2m_max[index]? ++ "°",
    forecastLow := H.mathRound daily.temperature_2m_min[index]? ++ "°" }

/-- The third `return` of the component (App.js lines 153-292). -/
def loadedScreen {Num : Type} (H : Host Num) (refreshing : Bool) (data : WeatherData Num) :
    LoadedScreen :=
  { gradient := if data.current.is_day then ["#4A90E2", "#7BB3F0"] else ["#2C3E50", "#34495E"],
    refreshControl := { refreshing := refreshing, onRefresh := Handler.onRefresh },
    weatherIcon := getWeatherIcon (some data.current.weather_code) data.current.is_day,
    temperature := H.mathRound (some data.current.temperature_2m) ++ "°C",
    description := getWeatherDescription (some data.current.weather_code),
    feelsLike := "Feels like " ++ H.mathRound (some data.current.apparent_temperature) ++ "°C",
    forecast := arrayMap (forecastItem H data.daily) data.daily.time 0 }

/-- The body of the component after its hooks (App.js lines 122-292):
`if (loading)`, then `if (!weatherData)`, then the populated screen. -/
def render {Num : Type} (H : Host Num) (s : State Num) : View :=
  if s.loading then View.loadingView
  else match s.weatherData with
    | none => View.errorView
    | some data => View.loadedView (loadedScreen H s.refreshing data)

/-! ## Sample inputs -/

/-- A host over integer temperatures: dates are shown as they are, an integer
rounds to itself and `Math.round(undefined)` is `NaN`. -/
def sampleHost : Host Int :=
  { formatDate := fun d => d,
    mathRound := fun x => match x with
      | some n => toString n
      | none => "NaN" }

/-- The `current` object used in the samples: night, clear sky. -/
def sampleCurrent : Current Int :=
  { temperature_2m := 21, apparent_temperature := 19, is_day := false, weather_code := 0 }

/-- A well-formed body: every daily array has length 7. -/
def sampleWeek : WeatherData Int :=
  { current := sampleCurrent,
    daily :=
      { time := ["2024-05-01", "2024-05-02", "2024-05-03", "2024-05-04", "2024-05-05",
          "2024-05-06", "2024-05-07"],
        weather_code := [0, 1, 2, 3, 61, 71, 95],
        temperature_2m_max := [30, 31, 32, 33, 34, 35, 36],
        temperature_2m_min := [20, 21, 22, 23, 24, 25, 26] } }

/-- A body whose daily arrays all have length 6. -/
def sampleSixDays : WeatherData Int :=
  { current := sampleCurrent,
    daily :=
      { time := ["2024-05-01", "2024-05-02", "2024-05-03", "2024-05-04", "2024-05-05",
          "2024-05-06"],
        weather_code := [0, 1, 2, 3, 61, 71],
        temperature_2m_max := [30, 31, 32, 33, 34, 35],
        temperature_2m_min := [20, 21, 22, 23, 24, 25] } }

/-! ## The component over any parsed body

`setWeatherData(data)` stores whatever `response.json()` delivers, and the
populated screen reads `current` and `daily` from it outside of any `try`.
Here the stored value is kept by what the component reads from it: whether it
is truthy, and its properties `current` and `daily`, each either an object of
the provider's shape or `undefined`. -/

namespace AnyBody

/-- A value held in `weatherData`. -/
inductive Body (Num : Type) where
  /-- A falsy value: `null` (the initial value), `false`, `0` or the empty
  string. -/
  | falsy
  /-- A truthy value with its properties `current` and `daily`; `none` is
  `undefined`, so `truthy none none` is what the empty object parses to. -/
  | truthy (current : Option (Current Num)) (daily : Option (Daily Num))
deriving DecidableEq, Repr

/-- The body of the provider's shape. -/
def Body.ofData {Num : Type} (data : WeatherData Num) : Body Num :=
  Body.truthy (some data.current) (some data.daily)

/-- Whether the value is falsy, or truthy with both `current` and `daily`. -/
def Body.readable {Num : Type} : Body Num → Bool
  | .falsy => true
  | .truthy (some _) (some _) => true
  | .truthy _ _ => false

/-- The React state of `WeatherApp` (App.js lines 19-21) with any parsed body
in `weatherData`. -/
structure State (Num : Type) where
  weatherData : Body Num
  loading : Bool
  refreshing : Bool
  inFlight : Nat
  alerts : Nat
  errorsLogged : Nat
deriving DecidableEq, Repr

/-- The state given by the `useState` initial values. -/
def initial {Num : Type} : State Num :=
  { weatherData := Body.falsy, loading := true, refreshing := false,
    inFlight := 0, alerts := 0, errorsLogged := 0 }

/-- How the awaited part of `fetchWeatherData` comes out. -/
inductive FetchResult (Num : Type) where
  /-- The promise of `fetch(...)` rejects. -/
  | fetchRejects
  /-- The response arrives with `response.ok` false. -/
  | notOk
  /-- The promise of `response.json()` rejects. -/
  | jsonRejects
  /-- The response is ok and its body parses to `data`. -/
  | parsed (data : Body Num)
deriving DecidableEq, Repr

/-- The call `fetchWeatherData()` up to its first `await` (App.js lines 80-84). -/
def fetchWeatherData {Num : Type} (s : State Num) : State Num :=
  { s with inFlight := s.inFlight + 1 }

/-- The `try` block after the awaits (App.js lines 86-91). -/
def tryBlock {Num : Type} (r : FetchResult Num) (s : State Num) : Except Unit (State Num) :=
  match r with
  | .fetchRejects => .error ()
  | .notOk => .error ()
  | .jsonRejects => .error ()
  | .parsed data => .ok { s with weatherData := data }

/-- The `catch` block (App.js lines 92-97). -/
def catchBlock {Num : Type} (s : State Num) : State Num :=
  { s with alerts := s.alerts + 1, errorsLogged := s.errorsLogged + 1 }

/-- The `finally` block (App.js lines 98-101). -/
def finallyBlock {Num : Type} (s : State Num) : State Num :=
  { s with loading := false, refreshing := false }

/-- The rest of `fetchWeatherData` once the awaited request has come out as `r`. -/
def fetchSettles {Num : Type} (r : FetchResult Num) (s : State Num) : State Num :=
  let s1 := match tryBlock r s with
    | .ok s2 => s2
    | .error _ => catchBlock s
  finallyBlock { s1 with inFlight := s1.inFlight - 1 }

/-- The handler `onRefresh` (App.js lines 104-107). -/
def onRefresh {Num : Type} (s : State Num) : State Num :=
  fetchWeatherData { s with refreshing := true }

/-- The effect run once on mount (App.js lines 109-111). -/
def useEffect {Num : Type} (s : State Num) : State Num :=
  fetchWeatherData s

/-- The exception a property read on `undefined` raises. -/
inductive JsError where
  | typeError
deriving DecidableEq, Repr

/-- The body of the component after its hooks (App.js lines 122-292), which
returns a tree or throws. After `current` and `daily` are destructured from
`weatherData` (line 153) the first read is `current.is_day` (line 160) and the forecast list reads
`daily.time` (line 254): each throws a `TypeError` on `undefined`. -/
def render {Num : Type} (H : Host Num) (s : State Num) : Except JsError View :=
  if s.loading then .ok View.loadingView
  else match s.weatherData with
    | .falsy => .ok View.errorView
    | .truthy current daily =>
      match current with
      | none => .error JsError.typeError
      | some c =>
        match daily with
        | none => .error JsError.typeError
        | some d =>
          .ok (View.loadedView (loadedScreen H s.refreshing { current := c, daily := d }))

/-- The state over any body that a state over provider-shaped data stands for. -/
def ofState {Num : Type} (s : WeatherApp.State Num) : State Num :=
  { weatherData := match s.weatherData with
      | none => Body.falsy
      | some data => Body.ofData data,
    loading := s.loading, refreshing := s.refreshing,
    inFlight := s.inFlight, alerts := s.alerts, errorsLogged := s.errorsLogged }

/-- The result over any body that a result over provider-shaped data stands
for. -/
def ofResult {Num : Type} : WeatherApp.FetchResult Num → FetchResult Num
  | .fetchRejects => .fetchRejects
  | .notOk => .notOk
  | .jsonRejects => .jsonRejects
  | .parsed data => .parsed (Body.ofData data)

end AnyBody

/-! ## Lemmas on table reads and on `arrayMap` -/

theorem lookup_none_of_not_mem (c : Int) (table : List (Int × String))
    (h : c ∉ table.map Prod.fst) : table.lookup c = none := by
  induction table with
  | nil => rfl
  | cons e rest ih =>
    obtain ⟨k, v⟩ := e
    simp only [List.map_cons, List.mem_cons, not_or] at h
    have hk : (c == k) = false := by simpa using h.1
    simp only [List.lookup, hk]
    exact ih h.2

theorem iconMap_tail_lookup (c : Int) (isDay : Bool) (h0 : c ≠ 0) (h1 : c ≠ 1) :
    (iconMap isDay).lookup c = ((iconMap true).drop 2).lookup c := by
  have e0 : (c == 0) = false := by simpa using h0
  have e1 : (c == 1) = false := by simpa using h1
  cases isDay <;> simp only [iconMap, List.lookup, e0, e1, List.drop]

theorem arrayMap_length {α β : Type} (f : α → Nat → β) (xs : List α) (start : Nat) :
    (arrayMap f xs start).length = xs.length := by
  induction xs generalizing start with
  | nil => rfl
  | cons x rest ih => simp [arrayMap, ih]

theorem arrayMap_getElem? {α β : Type} (f : α → Nat → β) (xs : List α) (start i : Nat) :
    (arrayMap f xs start)[i]? = (xs[i]?).map (fun x => f x (start + i)) := by
  induction xs generalizing start i with
  | nil => simp [arrayMap]
  | cons x rest ih =>
    cases i with
    | zero => simp [arrayMap]
    | succ j =>
      simp only [arrayMap, List.getElem?_cons_succ, ih]
      congr 1
      funext y
      congr 1
      omega

theorem render_of_data {Num : Type} (H : Host Num) (s : State Num) (d : WeatherData Num)
    (hl : s.loading = false) (hd : s.weatherData = some d) :
    render H s = View.loadedView (loadedScreen H s.refreshing d) := by
  simp [render, hl, hd]

theorem render_of_null {Num : Type} (H : Host Num) (s : State Num)
    (hl : s.loading = false) (hd : s.weatherData = none) :
    render H s = View.errorView := by
  simp [render, hl, hd]

/-! ## The weather classification table -/

/-- Claim C1: for every integer `c` outside the known code set, and for both
values of `isDay`, the description is "Unknown" and the icon is the fallback
glyph. -/
theorem unknown_code_falls_back (c : Int) (isDay : Bool)
    (h : c ∉ ([0, 1, 2, 3, 45, 48, 51, 53, 55, 61, 63, 65, 71, 73, 75, 77, 80, 81, 82, 85, 86,
      95, 96, 99] : List Int)) :
    getWeatherDescription (some c) = "Unknown" ∧ getWeatherIcon (some c) isDay = "🌤️" := by
  have hd : descriptions.lookup c = none := by
    apply lookup_none_of_not_mem
    simpa [descriptions] using h
  have hi : (iconMap isDay).lookup c = none := by
    apply lookup_none_of_not_mem
    simp only [List.mem_cons, List.mem_singleton, not_or] at h
    simp [iconMap, h]
  simp [getWeatherDescription, getWeatherIcon, readEntry, hd, hi, jsOr]

/-- Witness of C1 at the code 200. -/
theorem unknown_code_falls_back_witness :
    getWeatherDescription (some 200) = "Unknown" ∧ getWeatherIcon (some 200) true = "🌤️" ∧
      getWeatherIcon (some 200) false = "🌤️" :=
  ⟨(unknown_code_falls_back 200 true (by decide)).1,
   (unknown_code_falls_back 200 true (by decide)).2,
   (unknown_code_falls_back 200 false (by decide)).2⟩

/-- Claim C2, evaluated on the code: `iconMap` has no entry for the snow codes
71, 73, 75 and 77, which `descriptions` does have, so their icon is the one
produced by the fallback branch; the other 20 known codes have an entry, not
empty, in both tables. -/
theorem snow_codes_missing_from_iconMap :
    (∀ c ∈ ([71, 73, 75, 77] : List Int), ∀ isDay : Bool,
      readEntry (iconMap isDay) (some c) = none ∧ getWeatherIcon (some c) isDay = "🌤️" ∧
        readEntry descriptions (some c) ≠ none) ∧
    readEntry descriptions (some 71) = some "Slight snow fall" ∧
    readEntry (iconMap true) (some 85) = some "🌨️" ∧
    (∀ c ∈ ([0, 1, 2, 3, 45, 48, 51, 53, 55, 61, 63, 65, 80, 81, 82, 85, 86, 95, 96, 99] :
        List Int), ∀ isDay : Bool,
      readEntry (iconMap isDay) (some c) = some (getWeatherIcon (some c) isDay) ∧
        readEntry descriptions (some c) = some (getWeatherDescription (some c))) := by
  decide

/-- Claim C3: the icon differs between day and night exactly for the codes 0
and 1. -/
theorem icon_depends_on_isDay_iff (c : Int) :
    getWeatherIcon (some c) true ≠ getWeatherIcon (some c) false ↔ c = 0 ∨ c = 1 := by
  constructor
  · intro h
    by_contra hc
    simp only [not_or] at hc
    apply h
    simp only [getWeatherIcon, readEntry]
    rw [iconMap_tail_lookup c true hc.1 hc.2, iconMap_tail_lookup c false hc.1 hc.2]
  · rintro (rfl | rfl) <;> decide

/-! ## The fetch lifecycle -/

/-- Claim C4, as stated, fails: a refresh that fails after an earlier successful
fetch leaves the populated screen on display, not the error view. -/
theorem failed_refresh_keeps_loaded_view :
    FetchResult.failed (FetchResult.fetchRejects : FetchResult Int) = true ∧
    render sampleHost (fetchSettles FetchResult.fetchRejects
      (onRefresh (fetchSettles (FetchResult.parsed sampleWeek) (useEffect initial))))
      = View.loadedView (loadedScreen sampleHost false sampleWeek) ∧
    render sampleHost (fetchSettles FetchResult.fetchRejects
      (onRefresh (fetchSettles (FetchResult.parsed sampleWeek) (useEffect initial))))
      ≠ View.errorView := by
  decide

/-- Claim C4, amended: a failed fetch leaves `weatherData` as it was and ends
with `loading` and `refreshing` false, raising one alert; so it renders the
error view when no data had been fetched before (the initial fetch), and the
populated screen with the earlier data otherwise. -/
theorem failed_fetch_keeps_weatherData {Num : Type} (H : Host Num) (r : FetchResult Num)
    (s : State Num) (hr : r.failed = true) :
    (fetchSettles r s).weatherData = s.weatherData ∧
    (fetchSettles r s).loading = false ∧ (fetchSettles r s).refreshing = false ∧
    (fetchSettles r s).alerts = s.alerts + 1 ∧
    (s.weatherData = none → render H (fetchSettles r s) = View.errorView) ∧
    (∀ d, s.weatherData = some d →
      render H (fetchSettles r s) = View.loadedView (loadedScreen H false d)) ∧
    (s = initial → render H (fetchSettles r (useEffect s)) = View.errorView) := by
  cases r with
  | parsed d => simp [FetchResult.failed] at hr
  | fetchRejects | notOk | jsonRejects =>
    refine ⟨rfl, rfl, rfl, rfl, ?_, ?_, ?_⟩
    · intro h
      exact render_of_null H _ rfl h
    · intro d h
      exact render_of_data H _ d rfl h
    · rintro rfl
      rfl

/-- Witness of the amended C4: the initial fetch comes back with a response
that is not ok. -/
theorem failed_fetch_keeps_weatherData_witness :
    FetchResult.failed (FetchResult.notOk : FetchResult Int) = true ∧
    render sampleHost (fetchSettles FetchResult.notOk (useEffect initial)) = View.errorView :=
  ⟨by decide,
   (failed_fetch_keeps_weatherData sampleHost FetchResult.notOk initial (by decide)).2.2.2.2.2.2
     rfl⟩

/-- Claim C5, as stated, fails: an ok response whose daily arrays all have
length 6 ends in the populated screen with a forecast list of 6 rows, not in
the error view. -/
theorem six_day_response_is_rendered :
    sampleSixDays.daily.time.length = 6 ∧ sampleSixDays.daily.weather_code.length = 6 ∧
    sampleSixDays.daily.temperature_2m_max.length = 6 ∧
    sampleSixDays.daily.temperature_2m_min.length = 6 ∧
    render sampleHost (fetchSettles (FetchResult.parsed sampleSixDays) (useEffect initial))
      ≠ View.errorView ∧
    render sampleHost (fetchSettles (FetchResult.parsed sampleSixDays) (useEffect initial))
      = View.loadedView (loadedScreen sampleHost false sampleSixDays) ∧
    (loadedScreen sampleHost false sampleSixDays).forecast.length = 6 := by
  decide

/-- Claim C5, amended: no length is checked. Every ok, parsed response,
whatever the lengths of its daily arrays, ends in the populated screen, whose
forecast list has one row per element of `daily.time`; row `i` reads index `i`
of the other arrays, and a read past the end of a shorter array is `undefined`,
shown as the fallback icon and "Unknown". -/
theorem parsed_response_is_rendered_unchecked {Num : Type} (H : Host Num) (d : WeatherData Num) :
    render H (fetchSettles (FetchResult.parsed d) (useEffect initial))
      = View.loadedView (loadedScreen H false d) ∧
    render H (fetchSettles (FetchResult.parsed d) (useEffect initial)) ≠ View.errorView ∧
    (loadedScreen H false d).forecast.length = d.daily.time.length ∧
    (∀ i, (loadedScreen H false d).forecast[i]?
      = (d.daily.time[i]?).map (fun date => forecastItem H d.daily date i)) ∧
    (∀ date i, d.daily.weather_code.length ≤ i →
      (forecastItem H d.daily date i).forecastIcon = "🌤️" ∧
      (forecastItem H d.daily date i).forecastDescription = "Unknown") := by
  have hr : render H (fetchSettles (FetchResult.parsed d) (useEffect initial))
      = View.loadedView (loadedScreen H false d) := rfl
  refine ⟨hr, ?_, ?_, ?_, ?_⟩
  · rw [hr]
    exact fun h => View.noConfusion h
  · exact arrayMap_length _ _ _
  · intro i
    simp [loadedScreen, arrayMap_getElem?]
  · intro date i hi
    have hnone : d.daily.weather_code[i]? = none := List.getElem?_eq_none hi
    simp only [forecastItem, hnone]
    exact ⟨rfl, rfl⟩

/-- Witness of the amended C5: in a body whose `weather_code` array is empty,
row 3 reads past its end. -/
theorem parsed_response_is_rendered_unchecked_witness :
    (forecastItem sampleHost
      { sampleWeek.daily with weather_code := [] } "2024-05-04" 3).forecastIcon = "🌤️" ∧
    (forecastItem sampleHost
      { sampleWeek.daily with weather_code := [] } "2024-05-04" 3).forecastDescription
        = "Unknown" :=
  (parsed_response_is_rendered_unchecked sampleHost
    { sampleWeek with daily := { sampleWeek.daily with weather_code := [] } }).2.2.2.2
      "2024-05-04" 3 (by decide)

/-- Claim C6: a well-formed response to the initial fetch takes the component
from the loading view to the populated screen, whose forecast list has exactly
7 rows in the order of `daily.time`, row `i` built from index `i` of each daily
array, row 0 labelled "Today" and each later row labelled `formatDate` of its
date. -/
theorem well_formed_response_renders_seven_rows {Num : Type} (H : Host Num)
    (d : WeatherData Num)
    (ht : d.daily.time.length = 7) (hc : d.daily.weather_code.length = 7)
    (hmax : d.daily.temperature_2m_max.length = 7)
    (hmin : d.daily.temperature_2m_min.length = 7) (i : Nat) (hi : i < 7) :
    render H (useEffect (initial : State Num)) = View.loadingView ∧
    render H (fetchSettles (FetchResult.parsed d) (useEffect initial))
      = View.loadedView (loadedScreen H false d) ∧
    (loadedScreen H false d).forecast.length = 7 ∧
    ∃ date code high low,
      d.daily.time[i]? = some date ∧ d.daily.weather_code[i]? = some code ∧
      d.daily.temperature_2m_max[i]? = some high ∧
      d.daily.temperature_2m_min[i]? = some low ∧
      (loadedScreen H false d).forecast[i]? = some
        { forecastDate := if i = 0 then "Today" else H.formatDate date,
          forecastIcon := getWeatherIcon (some code) true,
          forecastDescription := getWeatherDescription (some code),
          forecastHigh := H.mathRound (some high) ++ "°",
          forecastLow := H.mathRound (some low) ++ "°" } := by
  refine ⟨rfl, rfl, ?_, ?_⟩
  · rw [← ht]
    exact arrayMap_length _ _ _
  · have h1 : i < d.daily.time.length := by omega
    have h2 : i < d.daily.weather_code.length := by omega
    have h3 : i < d.daily.temperature_2m_max.length := by omega
    have h4 : i < d.daily.temperature_2m_min.length := by omega
    refine ⟨d.daily.time[i], d.daily.weather_code[i], d.daily.temperature_2m_max[i],
      d.daily.temperature_2m_min[i], List.getElem?_eq_getElem h1, List.getElem?_eq_getElem h2,
      List.getElem?_eq_getElem h3, List.getElem?_eq_getElem h4, ?_⟩
    simp [loadedScreen, arrayMap_getElem?, forecastItem, List.getElem?_eq_getElem, h1, h2, h3, h4]

/-- Witness of C6 on the sample week, at row 1. -/
theorem well_formed_response_renders_seven_rows_witness :
    (sampleWeek.daily.time.length = 7 ∧ sampleWeek.daily.weather_code.length = 7 ∧
      sampleWeek.daily.temperature_2m_max.length = 7 ∧
      sampleWeek.daily.temperature_2m_min.length = 7 ∧ 1 < 7) ∧
    render sampleHost (useEffect (initial : State Int)) = View.loadingView ∧
    render sampleHost (fetchSettles (FetchResult.parsed sampleWeek) (useEffect initial))
      = View.loadedView (loadedScreen sampleHost false sampleWeek) ∧
    (loadedScreen sampleHost false sampleWeek).forecast.length = 7 ∧
    ∃ date code high low,
      sampleWeek.daily.time[1]? = some date ∧ sampleWeek.daily.weather_code[1]? = some code ∧
      sampleWeek.daily.temperature_2m_max[1]? = some high ∧
      sampleWeek.daily.temperature_2m_min[1]? = some low ∧
      (loadedScreen sampleHost false sampleWeek).forecast[1]? = some
        { forecastDate := if 1 = 0 then "Today" else sampleHost.formatDate date,
          forecastIcon := getWeatherIcon (some code) true,
          forecastDescription := getWeatherDescription (some code),
          forecastHigh := sampleHost.mathRound (some high) ++ "°",
          forecastLow := sampleHost.mathRound (some low) ++ "°" } :=
  ⟨by decide,
   well_formed_response_renders_seven_rows sampleHost sampleWeek
      (by decide) (by decide) (by decide) (by decide) 1 (by decide)⟩


/-- The component over provider-shaped data is the component over any body,
restricted: rendering and settling agree. -/
theorem render_ofState {Num : Type} (H : Host Num) (s : State Num) :
    AnyBody.render H (AnyBody.ofState s) = .ok (render H s) := by
  cases hl : s.loading <;> cases hd : s.weatherData <;>
    simp [AnyBody.render, AnyBody.ofState, AnyBody.Body.ofData, render, hl, hd]

theorem fetchSettles_ofState {Num : Type} (r : FetchResult Num) (s : State Num) :
    AnyBody.fetchSettles (AnyBody.ofResult r) (AnyBody.ofState s)
      = AnyBody.ofState (fetchSettles r s) := by
  cases r <;> rfl

/-- Claim C7, as stated, fails: an ok response whose body is the empty object
is stored in `weatherData`; in the state after the fetch settles (`loading`
false, `weatherData` truthy without `current` or `daily`) the render throws a
`TypeError` and returns none of the three views. -/
theorem empty_object_body_renders_no_view :
    AnyBody.fetchSettles (AnyBody.FetchResult.parsed (AnyBody.Body.truthy none none))
      (AnyBody.useEffect (AnyBody.initial : AnyBody.State Int))
      = { weatherData := AnyBody.Body.truthy none none, loading := false, refreshing := false,
          inFlight := 0, alerts := 0, errorsLogged := 0 } ∧
    AnyBody.render sampleHost
      (AnyBody.fetchSettles (AnyBody.FetchResult.parsed (AnyBody.Body.truthy none none))
        (AnyBody.useEffect AnyBody.initial))
      = .error AnyBody.JsError.typeError ∧
    ¬ ∃ view, AnyBody.render sampleHost
      (AnyBody.fetchSettles (AnyBody.FetchResult.parsed (AnyBody.Body.truthy none none))
        (AnyBody.useEffect AnyBody.initial)) = .ok view := by
  refine ⟨rfl, rfl, ?_⟩
  rintro ⟨view, h⟩
  exact Except.noConfusion h

/-- Claim C7, amended: in every state where `loading` is true or `weatherData`
is falsy or has both `current` and `daily`, the render returns exactly one of
the three views: the loading view exactly when `loading`, the error view
exactly when not loading with `weatherData` falsy, the populated screen
exactly when not loading with both `current` and `daily` present. In every
other state it throws. After every call of `fetchWeatherData` settles, by
success or by failure and whatever the body, `loading` and `refreshing` are
false. -/
theorem one_view_when_body_readable {Num : Type} (H : Host Num) (s : AnyBody.State Num)
    (r : AnyBody.FetchResult Num) (hs : s.loading = true ∨ s.weatherData.readable = true) :
    (∃ view, AnyBody.render H s = .ok view ∧
      ((view = View.loadingView ∧ view ≠ View.errorView ∧
          ¬ ∃ screen, view = View.loadedView screen) ∨
        (view ≠ View.loadingView ∧ view = View.errorView ∧
          ¬ ∃ screen, view = View.loadedView screen) ∨
        (view ≠ View.loadingView ∧ view ≠ View.errorView ∧
          ∃ screen, view = View.loadedView screen))) ∧
    (AnyBody.render H s = .ok View.loadingView ↔ s.loading = true) ∧
    (AnyBody.render H s = .ok View.errorView ↔
      s.loading = false ∧ s.weatherData = AnyBody.Body.falsy) ∧
    ((∃ screen, AnyBody.render H s = .ok (View.loadedView screen)) ↔
      s.loading = false ∧ ∃ c d, s.weatherData = AnyBody.Body.truthy (some c) (some d)) ∧
    (∀ t : AnyBody.State Num, AnyBody.render H t = .error AnyBody.JsError.typeError ↔
      t.loading = false ∧ t.weatherData.readable = false) ∧
    (∀ t : AnyBody.State Num, (AnyBody.fetchSettles r t).loading = false ∧
      (AnyBody.fetchSettles r t).refreshing = false) := by
  have hthrow : ∀ t : AnyBody.State Num,
      AnyBody.render H t = .error AnyBody.JsError.typeError ↔
        t.loading = false ∧ t.weatherData.readable = false := by
    intro t
    cases hl : t.loading with
    | true => simp [AnyBody.render, hl]
    | false =>
      cases hd : t.weatherData with
      | falsy => simp [AnyBody.render, hl, hd, AnyBody.Body.readable]
      | truthy c d =>
        cases c <;> cases d <;> simp [AnyBody.render, hl, hd, AnyBody.Body.readable]
  refine ⟨?_, ?_, ?_, ?_, hthrow, fun t => ⟨rfl, rfl⟩⟩
  · cases hl : s.loading with
    | true => exact ⟨View.loadingView, by simp [AnyBody.render, hl], by simp⟩
    | false =>
      have hb : s.weatherData.readable = true := by
        rcases hs with h | h
        · simp [hl] at h
        · exact h
      cases hd : s.weatherData with
      | falsy => exact ⟨View.errorView, by simp [AnyBody.render, hl, hd], by simp⟩
      | truthy c d =>
        rw [hd] at hb
        cases c with
        | none => cases d <;> simp [AnyBody.Body.readable] at hb
        | some c =>
          cases d with
          | none => simp [AnyBody.Body.readable] at hb
          | some d =>
            exact ⟨View.loadedView (loadedScreen H s.refreshing { current := c, daily := d }),
              by simp [AnyBody.render, hl, hd], by simp⟩
  · cases hl : s.loading with
    | true => simp [AnyBody.render, hl]
    | false =>
      cases hd : s.weatherData with
      | falsy => simp [AnyBody.render, hl, hd]
      | truthy c d => cases c <;> cases d <;> simp [AnyBody.render, hl, hd]
  · cases hl : s.loading with
    | true => simp [AnyBody.render, hl]
    | false =>
      cases hd : s.weatherData with
      | falsy => simp [AnyBody.render, hl, hd]
      | truthy c d => cases c <;> cases d <;> simp [AnyBody.render, hl, hd]
  · cases hl : s.loading with
    | true => simp [AnyBody.render, hl]
    | false =>
      cases hd : s.weatherData with
      | falsy => simp [AnyBody.render, hl, hd]
      | truthy c d => cases c <;> cases d <;> simp [AnyBody.render, hl, hd]

/-- Witness of the amended C7: the state after the initial fetch has settled
with the sample week as its body. -/
theorem one_view_when_body_readable_witness :
    ((AnyBody.fetchSettles (AnyBody.FetchResult.parsed (AnyBody.Body.ofData sampleWeek))
        (AnyBody.useEffect AnyBody.initial)).loading = true ∨
      (AnyBody.fetchSettles (AnyBody.FetchResult.parsed (AnyBody.Body.ofData sampleWeek))
        (AnyBody.useEffect AnyBody.initial)).weatherData.readable = true) ∧
    ∃ screen, AnyBody.render sampleHost
      (AnyBody.fetchSettles (AnyBody.FetchResult.parsed (AnyBody.Body.ofData sampleWeek))
        (AnyBody.useEffect AnyBody.initial)) = .ok (View.loadedView screen) :=
  ⟨Or.inr rfl,
   (one_view_when_body_readable sampleHost
      (AnyBody.fetchSettles (AnyBody.FetchResult.parsed (AnyBody.Body.ofData sampleWeek))
        (AnyBody.useEffect AnyBody.initial))
      AnyBody.FetchResult.notOk (Or.inr rfl)).2.2.2.1.mpr
      ⟨rfl, sampleWeek.current, sampleWeek.daily, rfl⟩⟩

/-- Claim C8, as stated, fails: `onRefresh` from the populated screen does not
bring back the loading view; the populated screen stays on display. -/
theorem refresh_does_not_show_loading_view :
    render sampleHost (fetchSettles (FetchResult.parsed sampleWeek) (useEffect initial))
      = View.loadedView (loadedScreen sampleHost false sampleWeek) ∧
    render sampleHost
      (onRefresh (fetchSettles (FetchResult.parsed sampleWeek) (useEffect initial)))
      ≠ View.loadingView ∧
    (onRefresh (fetchSettles (FetchResult.parsed sampleWeek)
      (useEffect (initial : State Int)))).loading = false := by
  decide

/-- Claim C8, amended: from every Loaded or Error state (`loading` false),
`onRefresh` sets `refreshing`, leaves `loading` false and `weatherData`
untouched, and issues exactly one new fetch; until that fetch settles the view
on display is the one of before (the populated screen with its refresh
indicator on, or the error view), never the loading view. -/
theorem refresh_keeps_view_and_issues_one_fetch {Num : Type} (H : Host Num) (s : State Num)
    (hl : s.loading = false) :
    (onRefresh s).inFlight = s.inFlight + 1 ∧
    (onRefresh s).refreshing = true ∧ (onRefresh s).loading = false ∧
    (onRefresh s).weatherData = s.weatherData ∧
    render H (onRefresh s) ≠ View.loadingView ∧
    (s.weatherData = none → render H (onRefresh s) = View.errorView) ∧
    (∀ d, s.weatherData = some d →
      render H (onRefresh s) = View.loadedView (loadedScreen H true d)) := by
  have hl2 : (onRefresh s).loading = false := hl
  refine ⟨rfl, rfl, hl2, rfl, ?_, ?_, ?_⟩
  · intro h
    cases hd : s.weatherData with
    | none =>
      rw [render_of_null H (onRefresh s) hl2 hd] at h
      exact View.noConfusion h
    | some d =>
      rw [render_of_data H (onRefresh s) d hl2 hd] at h
      exact View.noConfusion h
  · intro hd
    exact render_of_null H (onRefresh s) hl2 hd
  · intro d hd
    exact render_of_data H (onRefresh s) d hl2 hd

/-- Witness of the amended C8: a refresh from the populated screen. -/
theorem refresh_keeps_view_and_issues_one_fetch_witness :
    (fetchSettles (FetchResult.parsed sampleWeek) (useEffect (initial : State Int))).loading
      = false ∧
    (onRefresh (fetchSettles (FetchResult.parsed sampleWeek)
      (useEffect (initial : State Int)))).inFlight = 1 ∧
    render sampleHost
      (onRefresh (fetchSettles (FetchResult.parsed sampleWeek) (useEffect initial)))
      = View.loadedView (loadedScreen sampleHost true sampleWeek) :=
  ⟨by decide,
   (refresh_keeps_view_and_issues_one_fetch sampleHost
      (fetchSettles (FetchResult.parsed sampleWeek) (useEffect initial)) (by decide)).1,
   (refresh_keeps_view_and_issues_one_fetch sampleHost
      (fetchSettles (FetchResult.parsed sampleWeek) (useEffect initial)) (by decide)).2.2.2.2.2.2
      sampleWeek rfl⟩

/-- Claim C9, evaluated on the code: after the initial fetch fails the error
view is rendered, and that view has no `RefreshControl`, so it gives no way to
call `onRefresh`; only the populated screen carries one. -/
theorem error_view_has_no_refresh_control :
    render sampleHost (fetchSettles FetchResult.fetchRejects (useEffect initial))
      = View.errorView ∧
    (fetchSettles FetchResult.fetchRejects (useEffect (initial : State Int))).loading = false ∧
    (fetchSettles FetchResult.fetchRejects (useEffect (initial : State Int))).weatherData
      = none ∧
    (fetchSettles FetchResult.fetchRejects (useEffect (initial : State Int))).alerts = 1 ∧
    (render sampleHost
      (fetchSettles FetchResult.fetchRejects (useEffect initial))).refreshControl = none ∧
    (render sampleHost
      (fetchSettles (FetchResult.parsed sampleWeek) (useEffect initial))).refreshControl
      = some { refreshing := false, onRefresh := Handler.onRefresh } := by
  decide

/-- Claim C10: every row of the forecast list takes its icon as
`getWeatherIcon(daily.weather_code[i], true)`, whatever `current.is_day` is: a
row with code 0 shows the sun and a row with code 1 the sun behind a small
cloud, also when `current.is_day` is false and the icon of the current
conditions for the same code is the moon. -/
theorem forecast_icons_ignore_is_day {Num : Type} (H : Host Num) (d : WeatherData Num)
    (refreshing : Bool) (i : Nat) (hi : i < d.daily.time.length) :
    (∃ row, (loadedScreen H refreshing d).forecast[i]? = some row ∧
      row.forecastIcon = getWeatherIcon d.daily.weather_code[i]? true ∧
      (d.daily.weather_code[i]? = some 0 → row.forecastIcon = "☀️") ∧
      (d.daily.weather_code[i]? = some 1 → row.forecastIcon = "🌤️")) ∧
    (∀ isDay : Bool,
      (loadedScreen H refreshing { d with current := { d.current with is_day := isDay } }).forecast
        = (loadedScreen H refreshing d).forecast) ∧
    (d.current.is_day = false → d.current.weather_code = 0 ∨ d.current.weather_code = 1 →
      (loadedScreen H refreshing d).weatherIcon = "🌙") := by
  refine ⟨⟨forecastItem H d.daily d.daily.time[i] i, ?_, rfl, ?_, ?_⟩, fun _ => rfl, ?_⟩
  · simp [loadedScreen, arrayMap_getElem?, List.getElem?_eq_getElem, hi]
  · intro h
    simp only [forecastItem, h]
    decide
  · intro h
    simp only [forecastItem, h]
    decide
  · intro hday hcode
    simp only [loadedScreen, hday]
    rcases hcode with h | h <;> rw [h] <;> decide

/-- Witness of C10 on the sample week, whose `current` is a clear night and
whose rows 0 and 1 have the codes 0 and 1. -/
theorem forecast_icons_ignore_is_day_witness :
    sampleWeek.current.is_day = false ∧ sampleWeek.current.weather_code = 0 ∧
    sampleWeek.daily.weather_code[0]? = some 0 ∧
    (loadedScreen sampleHost false sampleWeek).weatherIcon = "🌙" ∧
    ∃ row, (loadedScreen sampleHost false sampleWeek).forecast[0]? = some row ∧
      row.forecastIcon = "☀️" :=
  ⟨by decide, by decide, by decide,
   (forecast_icons_ignore_is_day sampleHost sampleWeek false 0 (by decide)).2.2
      (by decide) (Or.inl (by decide)),
   (forecast_icons_ignore_is_day sampleHost sampleWeek false 0 (by decide)).1.elim
      (fun row h => ⟨row, h.1, h.2.2.1 (by decide)⟩)⟩

end WeatherApp
